import Mathlib

/-!
Verification of the token lifecycle and revocation engine of the
`sqlalchemy_practice` repository.

The repository contains two parallel implementations of the same
username/password authentication service:

* the "app" variant (`src/app/...`): `app/core/security.py` (codec),
  `app/repositories/token_repository.py` and `app/repositories/base.py`
  (store), `app/services/auth_service.py` (lifecycle manager),
  `app/api/routes/auth.py` and `app/api/dependencies.py` (facade);
* the "flat" variant (`src/auth.py`, `src/main.py`, `src/models.py`).

This file is a shallow embedding of both variants.  JWTs are modelled as an
inductive `Token` (a payload signed under a key, or garbage); timestamps are
natural numbers (seconds); the database is an explicit list of records, and
every stateful operation returns its result together with the committed
store state.  Random draws (`secrets.token_urlsafe`) and the clock
(`datetime.utcnow`) are passed as explicit parameters.
-/

/-- A JWT claims dictionary as built by the source: the keys `sub`, `type`
(`typ` here, since the payload key is the string "type"), `jti` and `exp`.
Absent keys are `none`, matching Python's `payload.get(...)` returning
`None`. -/
structure Claims where
  sub : Option String
  typ : Option String
  jti : Option String
  exp : Option Nat
deriving DecidableEq, Repr

/-- A token string.  `jose.jwt.encode(payload, key, algorithm)` produces a
signed token carrying its payload; any other string is garbage that fails
signature verification. -/
inductive Token where
  | signed (key : Nat) (payload : Claims)
  | garbage (raw : String)
deriving DecidableEq, Repr

/-- The access-token signing key (`SECRET_KEY`, auth.py line 13 /
config.py). -/
def SECRET_KEY : Nat := 0

/-- The refresh-token signing key (`REFRESH_SECRET_KEY`, auth.py line 14 /
config.py); distinct from `SECRET_KEY`. -/
def REFRESH_SECRET_KEY : Nat := 1

/-- `ACCESS_TOKEN_EXPIRE_MINUTES = 15` (auth.py line 16 / config.py). -/
def ACCESS_TOKEN_EXPIRE_MINUTES : Nat := 15

/-- `REFRESH_TOKEN_EXPIRE_DAYS = 30` (auth.py line 17 / config.py). -/
def REFRESH_TOKEN_EXPIRE_DAYS : Nat := 30

/-- `timedelta(minutes=ACCESS_TOKEN_EXPIRE_MINUTES)` in seconds. -/
def ACCESS_TTL : Nat := ACCESS_TOKEN_EXPIRE_MINUTES * 60

/-- `timedelta(days=REFRESH_TOKEN_EXPIRE_DAYS)` in seconds. -/
def REFRESH_TTL : Nat := REFRESH_TOKEN_EXPIRE_DAYS * 86400

/-- `jose.jwt.decode(token, key, algorithms=[ALGORITHM])`: verifies the
signature (the signing key must match) and, when an `exp` claim is present,
that it has not passed (jose raises `ExpiredSignatureError` when
`exp < now`).  Returns `none` exactly where jose raises a `JWTError`. -/
def jwtDecode (key : Nat) (now : Nat) : Token → Option Claims
  | Token.signed k p =>
      if k = key then
        match p.exp with
        | some e => if e < now then none else some p
        | none => some p
      else none
  | Token.garbage _ => none

/-- `decode_access_token` (app/core/security.py lines 43-44). -/
def decode_access_token (now : Nat) (tok : Token) : Option Claims :=
  jwtDecode SECRET_KEY now tok

/-- `decode_refresh_token` (app/core/security.py lines 46-47). -/
def decode_refresh_token (now : Nat) (tok : Token) : Option Claims :=
  jwtDecode REFRESH_SECRET_KEY now tok

/-- `create_access_token(data, expires_delta)` (app/core/security.py lines
18-27, identical in auth.py lines 33-43): copies `data`, sets
`exp = now + expires_delta` (default 15 minutes) and `type = "access"` on
the copy, and signs with `SECRET_KEY`. -/
def create_access_token (data : Claims) (now : Nat) (expiresDelta : Option Nat) : Token :=
  let expire := now + (match expiresDelta with
    | some d => d
    | none => ACCESS_TTL)
  let to_encode := { data with exp := some expire, typ := some "access" }
  Token.signed SECRET_KEY to_encode

/-- The observable effect of one `create_access_token` call: the returned
token and the caller's `data` dict after the call.  The source mutates only
a copy (`to_encode = data.copy()`, app/core/security.py line 19), so the
argument comes back unchanged. -/
def createAccessTokenCall (data : Claims) (now : Nat) (expiresDelta : Option Nat) :
    Token × Claims :=
  (create_access_token data now expiresDelta, data)

/-- `create_refresh_token(data)` (app/core/security.py lines 29-41,
identical in auth.py lines 45-57): draws a fresh random jti
(`secrets.token_urlsafe(32)`, passed here as the explicit parameter
`tokenJti`), then mutates `data` IN PLACE (`data.update({...})`, no copy),
setting `exp = now + 30 days`, `type = "refresh"` and `jti`, and signs the
mutated dict with `REFRESH_SECRET_KEY`.  The second component is the
caller's `data` dict after the call. -/
def create_refresh_token (data : Claims) (now : Nat) (tokenJti : String) :
    Token × Claims :=
  let expire := now + REFRESH_TTL
  let data' := { data with exp := some expire, typ := some "refresh", jti := some tokenJti }
  (Token.signed REFRESH_SECRET_KEY data', data')

/-- A row of the app variant's `refresh_tokens` table
(app/models/refresh_token.py lines 8-22).  The auto-generated primary key
`id` and the informational `created_at` column are never read by any
modelled operation and are omitted. -/
structure AppRefreshTokenRecord where
  userId : String
  tokenJti : String
  expiresAt : Nat
deriving DecidableEq, Repr

/-- `TokenRepository.get_by_jti` (app/repositories/token_repository.py
lines 10-14): `SELECT ... WHERE token_jti == jti`, `scalar_one_or_none`
under the unique index on `token_jti`. -/
def get_by_jti (store : List AppRefreshTokenRecord) (j : String) :
    Option AppRefreshTokenRecord :=
  store.find? (fun r => r.tokenJti == j)

/-- `TokenRepository.revoke_by_jti` (token_repository.py lines 29-34):
`DELETE ... WHERE token_jti == jti`, then COMMIT (line 33); returns the
statement's rowcount together with the committed store. -/
def revoke_by_jti (store : List AppRefreshTokenRecord) (j : String) :
    Nat × List AppRefreshTokenRecord :=
  ((store.filter (fun r => r.tokenJti == j)).length,
   store.filter (fun r => !(r.tokenJti == j)))

/-- `TokenRepository.revoke_by_user_id` (token_repository.py lines 22-27):
`DELETE ... WHERE user_id == user_id`, then COMMIT; returns rowcount and
the committed store. -/
def revoke_by_user_id (store : List AppRefreshTokenRecord) (u : String) :
    Nat × List AppRefreshTokenRecord :=
  ((store.filter (fun r => r.userId == u)).length,
   store.filter (fun r => !(r.userId == u)))

/-- Database-level failure of a commit: the unique index on `token_jti`
raises an IntegrityError when a second record with the same jti is
inserted. -/
inductive DbError where
  | integrityError
deriving DecidableEq, Repr

/-- `BaseRepository.create` (app/repositories/base.py lines 31-36)
instantiated at `RefreshToken`: `session.add` the new row, then COMMIT.
The commit fails with an IntegrityError when the unique index on
`token_jti` (app/models/refresh_token.py line 18) is violated. -/
def tokenRepoCreate (store : List AppRefreshTokenRecord) (rec : AppRefreshTokenRecord) :
    Except DbError (List AppRefreshTokenRecord) :=
  if store.any (fun r => r.tokenJti == rec.tokenJti) then Except.error DbError.integrityError
  else Except.ok (store ++ [rec])

/-- `AuthService._create_and_save_refresh_token` (auth_service.py lines
69-94): draws one jti (`secrets.token_urlsafe(32)`, the parameter
`tokenJti`), encodes the refresh JWT with `exp = now + 30 days`, and
inserts the record via `token_repo.create` (which commits).  There is no
exception handling: an IntegrityError propagates to the caller. -/
def app_create_and_save_refresh_token (userId : String) (now : Nat) (tokenJti : String)
    (store : List AppRefreshTokenRecord) :
    Except DbError (Token × List AppRefreshTokenRecord) :=
  let expiresAt := now + REFRESH_TTL
  let refreshTok := Token.signed REFRESH_SECRET_KEY
    { sub := some userId, typ := some "refresh", jti := some tokenJti, exp := some expiresAt }
  match tokenRepoCreate store { userId := userId, tokenJti := tokenJti, expiresAt := expiresAt } with
  | Except.ok store' => Except.ok (refreshTok, store')
  | Except.error e => Except.error e

/-- Result of a refresh call: the new token pair, an HTTPException
(status code and detail string), or an uncaught database error escaping
the service layer. -/
inductive RefreshOutcome where
  | ok (tokens : Token × Token)
  | err (statusCode : Nat) (detail : String)
  | dbFailure
deriving DecidableEq, Repr

/-- True exactly on the success constructor. -/
def RefreshOutcome.isOk : RefreshOutcome → Bool
  | RefreshOutcome.ok _ => true
  | _ => false

/-- `AuthService.refresh_tokens` (auth_service.py lines 96-134).  Decode
the presented token (`JWTError` is caught and mapped to 401 "Invalid
token", line 134); check the `type` claim; check `sub` and `jti` are
present and non-falsy; look the jti up in the store (absent maps to 401
"Token revoked", line 117); if `utcnow() > expires_at` delete the record
and raise 401 "Token expired" (lines 120-122, the delete COMMITS); else
delete the old record (line 125, COMMITS), then create and insert the new
pair (line 129, a second, separate COMMIT).  The second component is the
committed store when the call returns or raises. -/
def app_refresh_tokens (tok : Token) (store : List AppRefreshTokenRecord)
    (now : Nat) (newJti : String) : RefreshOutcome × List AppRefreshTokenRecord :=
  match decode_refresh_token now tok with
  | none => (RefreshOutcome.err 401 "Invalid token", store)
  | some payload =>
    if payload.typ ≠ some "refresh" then (RefreshOutcome.err 401 "Not a refresh token", store)
    else
      match payload.sub, payload.jti with
      | some uid, some j =>
        if uid = "" ∨ j = "" then (RefreshOutcome.err 401 "Invalid token payload", store)
        else
          match get_by_jti store j with
          | none => (RefreshOutcome.err 401 "Token revoked", store)
          | some dbToken =>
            if dbToken.expiresAt < now then
              (RefreshOutcome.err 401 "Token expired", (revoke_by_jti store j).2)
            else
              let store1 := (revoke_by_jti store j).2
              let newAccess := create_access_token
                { sub := some uid, typ := none, jti := none, exp := none } now none
              match app_create_and_save_refresh_token uid now newJti store1 with
              | Except.ok (newRefresh, store2) =>
                  (RefreshOutcome.ok (newAccess, newRefresh), store2)
              | Except.error _ => (RefreshOutcome.dbFailure, store1)
      | _, _ => (RefreshOutcome.err 401 "Invalid token payload", store)

/-- The `/auth/refresh` route (app/api/routes/auth.py lines 55-76): 401
when the refresh cookie is missing; re-raise HTTPExceptions from the
service; any other exception (in particular the IntegrityError escaping
`_create_and_save_refresh_token`) becomes 500 "Internal server error"
(line 76). -/
def app_refresh_route (cookie : Option Token) (store : List AppRefreshTokenRecord)
    (now : Nat) (newJti : String) : RefreshOutcome × List AppRefreshTokenRecord :=
  match cookie with
  | none => (RefreshOutcome.err 401 "No refresh token found", store)
  | some tok =>
    match app_refresh_tokens tok store now newJti with
    | (RefreshOutcome.dbFailure, s) => (RefreshOutcome.err 500 "Internal server error", s)
    | r => r

/-- The `/auth/logout` route (app/api/routes/auth.py lines 82-98): if the
refresh cookie is present, try to decode it; on `JWTError` silently pass
(line 94-95); if it decodes and carries a truthy jti, call
`auth_service.logout` = `revoke_by_jti` (which deletes and commits,
ignoring the count for the response).  Always returns the success
message. -/
def app_logout_route (cookie : Option Token) (store : List AppRefreshTokenRecord)
    (now : Nat) : String × List AppRefreshTokenRecord :=
  match cookie with
  | none => ("Successfully logged out", store)
  | some tok =>
    match decode_refresh_token now tok with
    | none => ("Successfully logged out", store)
    | some payload =>
      match payload.jti with
      | none => ("Successfully logged out", store)
      | some j =>
        if j = "" then ("Successfully logged out", store)
        else ("Successfully logged out", (revoke_by_jti store j).2)

/-- `get_current_user` (app/api/dependencies.py lines 11-42, and the same
logic in auth.py lines 154-186): read the access cookie; decode with the
access key; require the `type` claim to be "access" and `sub` to be
non-None; look the user id up in the users table.  Every failure raises
the same 401 credentials exception, modelled as `none`; success returns
the user's id. -/
def get_current_user (cookie : Option Token) (now : Nat) (users : List String) :
    Option String :=
  match cookie with
  | none => none
  | some tok =>
    match decode_access_token now tok with
    | none => none
    | some payload =>
      if payload.typ ≠ some "access" then none
      else
        match payload.sub with
        | none => none
        | some uid => if users.contains uid then some uid else none

/-- The app variant's database state: the users table (only ids are read
by the modelled operations) and the refresh_tokens table. -/
structure AppDb where
  users : List String
  refresh_tokens : List AppRefreshTokenRecord
deriving DecidableEq, Repr

/-- `get_current_user` as a function of the whole database state. -/
def get_current_user_db (cookie : Option Token) (now : Nat) (db : AppDb) :
    Option String :=
  get_current_user cookie now db.users

/-- The `/auth/logout-all` route acting on the database state
(app/api/routes/auth.py lines 105-120 via `AuthService.logout_all`,
auth_service.py lines 140-142 = `revoke_by_user_id`): returns the revoked
count and the new state. -/
def logout_all_db (db : AppDb) (u : String) : Nat × AppDb :=
  let r := revoke_by_user_id db.refresh_tokens u
  (r.1, { db with refresh_tokens := r.2 })

/-- Single-token logout acting on the database state (`AuthService.logout`,
auth_service.py lines 136-138 = `revoke_by_jti`). -/
def logout_db (db : AppDb) (j : String) : AppDb :=
  { db with refresh_tokens := (revoke_by_jti db.refresh_tokens j).2 }

/-- A row of the flat variant's `refresh_tokens` table (models.py lines
7-17), including its `is_revoked` column (line 13, `default=False`).  The
auto-generated `id` and `created_at` columns are never read by any
modelled operation and are omitted. -/
structure FlatRefreshTokenRecord where
  userId : String
  tokenJti : String
  isRevoked : Bool
  expiresAt : Nat
deriving DecidableEq, Repr

/-- Construction of a flat `RefreshToken` row as done by
`save_refresh_token` (auth.py lines 64-68) and
`create_and_save_refresh_token` (auth.py lines 88-92): only `user_id`,
`token_jti` and `expires_at` are passed, so `is_revoked` takes its column
default `False`. -/
def mkFlatRecord (u : String) (j : String) (expiresAt : Nat) : FlatRefreshTokenRecord :=
  { userId := u, tokenJti := j, isRevoked := false, expiresAt := expiresAt }

/-- `save_refresh_token` (auth.py lines 60-70): computes
`expires_at = utcnow() + 30 days` and adds the new row (no commit of its
own; the result is the store once the caller's commit applies the add). -/
def save_refresh_token (store : List FlatRefreshTokenRecord) (u : String) (j : String)
    (now : Nat) : List FlatRefreshTokenRecord :=
  store ++ [mkFlatRecord u j (now + REFRESH_TTL)]

/-- `create_and_save_refresh_token` (auth.py lines 72-97, used by the flat
login): draws one jti (the parameter `j`), encodes the refresh JWT, adds
the row and COMMITS; the commit fails with an IntegrityError when the
unique index on `token_jti` (models.py line 12) is violated. -/
def flat_create_and_save_refresh_token (u : String) (now : Nat) (j : String)
    (store : List FlatRefreshTokenRecord) :
    Except DbError (Token × List FlatRefreshTokenRecord) :=
  let expiresAt := now + REFRESH_TTL
  let refreshTok := Token.signed REFRESH_SECRET_KEY
    { sub := some u, typ := some "refresh", jti := some j, exp := some expiresAt }
  if store.any (fun r => r.tokenJti == j) then Except.error DbError.integrityError
  else Except.ok (refreshTok, store ++ [mkFlatRecord u j expiresAt])

/-- `revoke_token` (auth.py lines 134-139): `DELETE ... WHERE
token_jti == jti` with NO commit of its own; returns the rowcount and the
store once the caller commits. -/
def revoke_token (store : List FlatRefreshTokenRecord) (j : String) :
    Nat × List FlatRefreshTokenRecord :=
  ((store.filter (fun r => r.tokenJti == j)).length,
   store.filter (fun r => !(r.tokenJti == j)))

/-- `revoke_user_tokens` (auth.py lines 99-132): first counts the user's
rows; if the count is 0 it returns 0 without executing a delete; otherwise
it executes `DELETE ... WHERE user_id == user_id` and returns the
rowcount (no commit of its own). -/
def revoke_user_tokens (store : List FlatRefreshTokenRecord) (u : String) :
    Nat × List FlatRefreshTokenRecord :=
  let cnt := (store.filter (fun r => r.userId == u)).length
  if cnt = 0 then (0, store)
  else ((store.filter (fun r => r.userId == u)).length,
        store.filter (fun r => !(r.userId == u)))

/-- `verify_refresh_token` (auth.py lines 188-215): read the refresh
cookie; decode with the refresh key (`JWTError` maps to 401 "Invalid
refresh token"); require `type == "refresh"` and a non-None `sub`; look
the USER id up in the users table (401 "User not found" if absent).  Note
that it never consults the refresh_tokens store.  Success returns the
user's id; errors are the raised HTTPException's status code and
detail. -/
def verify_refresh_token (cookie : Option Token) (users : List String) (now : Nat) :
    Except (Nat × String) String :=
  match cookie with
  | none => Except.error (401, "Refresh token not found")
  | some tok =>
    match decode_refresh_token now tok with
    | none => Except.error (401, "Invalid refresh token")
    | some payload =>
      if payload.typ ≠ some "refresh" then Except.error (401, "Not a refresh token")
      else
        match payload.sub with
        | none => Except.error (401, "No user ID in token")
        | some uid =>
          if users.contains uid then Except.ok uid
          else Except.error (401, "User not found")

/-- The flat `/api/v1/auth/refresh` endpoint (main.py lines 160-207):
`verify_refresh_token` (which never consults the token store), then decode
the same cookie again for its jti; if the jti is truthy, `revoke_token`
(no commit); encode a new access token and a new refresh token (fresh
random jti `newJti`); decode the new refresh token for its jti and, if
truthy, `save_refresh_token`; then a SINGLE `db.commit()` (line 190).  Any
HTTPException or JWTError rolls back (store unchanged); any other
exception — in particular an IntegrityError at the commit — rolls back and
becomes 500 "Internal server error" (lines 199-207). -/
def flat_refresh_endpoint (cookie : Option Token) (users : List String)
    (store : List FlatRefreshTokenRecord) (now : Nat) (newJti : String) :
    RefreshOutcome × List FlatRefreshTokenRecord :=
  match verify_refresh_token cookie users now with
  | Except.error cd => (RefreshOutcome.err cd.1 cd.2, store)
  | Except.ok uid =>
    match cookie with
    | none => (RefreshOutcome.err 401 "No refresh token found", store)
    | some tok =>
      match decode_refresh_token now tok with
      | none => (RefreshOutcome.err 401 "Token error", store)
      | some oldPayload =>
        let store1 := match oldPayload.jti with
          | some j => if j = "" then store else (revoke_token store j).2
          | none => store
        let newAccess := create_access_token
          { sub := some uid, typ := none, jti := none, exp := none } now none
        let newRefresh := (create_refresh_token
          { sub := some uid, typ := none, jti := none, exp := none } now newJti).1
        match decode_refresh_token now newRefresh with
        | none => (RefreshOutcome.err 401 "Token error", store)
        | some newPayload =>
          match newPayload.jti with
          | none => (RefreshOutcome.ok (newAccess, newRefresh), store1)
          | some nj =>
            if nj = "" then (RefreshOutcome.ok (newAccess, newRefresh), store1)
            else if store1.any (fun r => r.tokenJti == nj) then
              (RefreshOutcome.err 500 "Internal server error", store)
            else
              (RefreshOutcome.ok (newAccess, newRefresh), save_refresh_token store1 uid nj now)

/-- The flat `/api/v1/auth/logout` endpoint (main.py lines 215-232): if
the refresh cookie is present and decodes and carries a truthy jti,
`revoke_token` then commit; `JWTError` is swallowed (lines 228-229).
Always returns the success message. -/
def flat_logout_endpoint (cookie : Option Token) (store : List FlatRefreshTokenRecord)
    (now : Nat) : String × List FlatRefreshTokenRecord :=
  match cookie with
  | none => ("Successfully logged out", store)
  | some tok =>
    match decode_refresh_token now tok with
    | none => ("Successfully logged out", store)
    | some payload =>
      match payload.jti with
      | none => ("Successfully logged out", store)
      | some j =>
        if j = "" then ("Successfully logged out", store)
        else ("Successfully logged out", (revoke_token store j).2)

/-- The flat `/api/v1/auth/logout-all` endpoint (main.py lines 235-278):
`revoke_user_tokens` for the current user, then commit; returns the
revoked count and the committed store. -/
def flat_logout_all_endpoint (store : List FlatRefreshTokenRecord) (u : String) :
    Nat × List FlatRefreshTokenRecord :=
  revoke_user_tokens store u

/-- The retry behaviour the spec ascribes to `ConflictError` recovery
(spec section 7: a jti collision on insert "is retried internally once
before surfacing as an internal error", with a fresh jti): the insert is
attempted with the first drawn jti `j1` and, on conflict, retried exactly
once with a second fresh draw `j2`.  This definition follows the spec's
words; it exists only to be contrasted with
`app_create_and_save_refresh_token`, the definition translated from the
source, which performs no retry. -/
def spec_create_and_save_with_retry (u : String) (now : Nat) (j1 j2 : String)
    (store : List AppRefreshTokenRecord) :
    Except DbError (Token × List AppRefreshTokenRecord) :=
  match app_create_and_save_refresh_token u now j1 store with
  | Except.ok r => Except.ok r
  | Except.error _ => app_create_and_save_refresh_token u now j2 store

/-- The flat-variant store states reachable through the modelled
operations, starting from the empty table: login
(`create_and_save_refresh_token`), the refresh endpoint, the logout
endpoint and the logout-all endpoint.  Every constructor applies one
committed operation. -/
inductive FlatReachable : List FlatRefreshTokenRecord → Prop where
  | init : FlatReachable []
  | login (s : List FlatRefreshTokenRecord) (u : String) (now : Nat) (j : String)
      (t : Token) (s' : List FlatRefreshTokenRecord) :
      FlatReachable s →
      flat_create_and_save_refresh_token u now j s = Except.ok (t, s') →
      FlatReachable s'
  | refresh (s : List FlatRefreshTokenRecord) (cookie : Option Token)
      (users : List String) (now : Nat) (nj : String) :
      FlatReachable s →
      FlatReachable (flat_refresh_endpoint cookie users s now nj).2
  | logout (s : List FlatRefreshTokenRecord) (cookie : Option Token) (now : Nat) :
      FlatReachable s →
      FlatReachable (flat_logout_endpoint cookie s now).2
  | logoutAll (s : List FlatRefreshTokenRecord) (u : String) :
      FlatReachable s →
      FlatReachable (flat_logout_all_endpoint s u).2

/-- True when no stored record has its `is_revoked` flag set. -/
def allNotRevoked (s : List FlatRefreshTokenRecord) : Bool :=
  s.all (fun r => !r.isRevoked)

/-- Claims payload of the fixture refresh token: user "u1", jti "j1",
expiring at time 2000. -/
def claimsU1J1 : Claims :=
  { sub := some "u1", typ := some "refresh", jti := some "j1", exp := some 2000 }

/-- Fixture refresh token signed with the refresh key. -/
def tokenU1J1 : Token := Token.signed REFRESH_SECRET_KEY claimsU1J1

/-- Flat-variant store holding exactly the record matching `tokenU1J1`. -/
def flatStoreJ1 : List FlatRefreshTokenRecord := [mkFlatRecord "u1" "j1" 2000]

/-- App-variant store with two records; a fresh insert drawing jti "jX"
collides with the second one. -/
def appStoreTwo : List AppRefreshTokenRecord :=
  [{ userId := "u1", tokenJti := "j1", expiresAt := 2000 },
   { userId := "u2", tokenJti := "jX", expiresAt := 3000 }]

/-- App-variant store whose only record has stored expiry 100. -/
def appStoreExpiry : List AppRefreshTokenRecord :=
  [{ userId := "u1", tokenJti := "j1", expiresAt := 100 }]

/-- Refresh token matching `appStoreExpiry`, with the embedded expiry also
100. -/
def tokenExpiry100 : Token := Token.signed REFRESH_SECRET_KEY
  { sub := some "u1", typ := some "refresh", jti := some "j1", exp := some 100 }

/-- App-variant store whose "j1" record is long past its stored expiry. -/
def appStoreStale : List AppRefreshTokenRecord :=
  [{ userId := "u1", tokenJti := "j1", expiresAt := 50 }]

/-- Fixture database state for the app variant: one user, one refresh
token record. -/
def dbW : AppDb :=
  { users := ["u1"],
    refresh_tokens := [{ userId := "u1", tokenJti := "j1", expiresAt := 2000 }] }

/-- A string that is not a JWT at all: decoding fails under every key. -/
def garbageTok : Token := Token.garbage "not-a-jwt"

/-- The flat store produced by one login (`create_and_save_refresh_token`)
from the empty table at time 0. -/
def flatStoreOne : List FlatRefreshTokenRecord :=
  [mkFlatRecord "u1" "jW" (0 + REFRESH_TTL)]

/-- C1: single-use rotation fails in the flat variant.  With user "u1" and
the store holding the record for jti "j1", a first refresh with
`tokenU1J1` succeeds and rotates the store to the "j2" record; a second
refresh presenting the SAME original token then also succeeds — it is not
rejected with 401 "Token revoked" — because `verify_refresh_token`
(auth.py lines 188-215) never looks the jti up in the store and
`revoke_token` ignores its rowcount of 0. -/
theorem flat_refresh_accepts_rotated_token :
    (flat_refresh_endpoint (some tokenU1J1) ["u1"] flatStoreJ1 100 "j2").2
      = [mkFlatRecord "u1" "j2" (100 + REFRESH_TTL)]
  ∧ ((flat_refresh_endpoint (some tokenU1J1) ["u1"] flatStoreJ1 100 "j2").1).isOk = true
  ∧ ((flat_refresh_endpoint (some tokenU1J1) ["u1"]
        [mkFlatRecord "u1" "j2" (100 + REFRESH_TTL)] 200 "j3").1).isOk = true
  ∧ (flat_refresh_endpoint (some tokenU1J1) ["u1"]
        [mkFlatRecord "u1" "j2" (100 + REFRESH_TTL)] 200 "j3").1
      ≠ RefreshOutcome.err 401 "Token revoked" := by
  refine ⟨by decide, by decide, by decide, by decide⟩

/-- C2: rotation is not atomic in the app variant.  Rotating `tokenU1J1`
over `appStoreTwo` first commits the delete of the "j1" record inside
`revoke_by_jti` (token_repository.py line 33); the subsequent insert
(base.py line 34, drawing the colliding jti "jX") fails in its own,
second transaction, so the call surfaces as 500 while the committed store
holds NEITHER the old "j1" record NOR a new one — zero records for that
rotation, although the claim says the store would be unchanged or hold
exactly the old record. -/
theorem app_rotation_not_atomic :
    (revoke_by_jti appStoreTwo "j1").2
      = [{ userId := "u2", tokenJti := "jX", expiresAt := 3000 }]
  ∧ (app_refresh_tokens tokenU1J1 appStoreTwo 100 "jX").1 = RefreshOutcome.dbFailure
  ∧ app_refresh_route (some tokenU1J1) appStoreTwo 100 "jX"
      = (RefreshOutcome.err 500 "Internal server error",
         [{ userId := "u2", tokenJti := "jX", expiresAt := 3000 }])
  ∧ get_by_jti [{ userId := "u2", tokenJti := "jX", expiresAt := 3000 }] "j1" = none := by
  refine ⟨by decide, by decide, by decide, by decide⟩

/-- C3 counterexample: at the boundary `record.expiresAt = now` (both 100)
the app variant's refresh does NOT fail with "Token expired" — the code
checks `utcnow() > expires_at` strictly (auth_service.py line 120) — and
instead issues a new pair, although the claim requires failure whenever
`expiresAt <= now`. -/
theorem store_expiry_boundary_counterexample :
    get_by_jti appStoreExpiry "j1"
      = some { userId := "u1", tokenJti := "j1", expiresAt := 100 }
  ∧ ((app_refresh_tokens tokenExpiry100 appStoreExpiry 100 "j2").1).isOk = true
  ∧ (app_refresh_tokens tokenExpiry100 appStoreExpiry 100 "j2").1
      ≠ RefreshOutcome.err 401 "Token expired" := by
  refine ⟨by decide, by decide, by decide⟩

/-- C4: whole-user revocation does not stop the flat variant's refresh.
`flat_logout_all_endpoint` does delete all of "u1"'s records and return
the count 1, but a subsequent refresh with the previously issued,
not-yet-expired `tokenU1J1` still succeeds — it is not rejected with 401
"Token revoked" — because `verify_refresh_token` (auth.py lines 188-215)
never consults the store. -/
theorem flat_refresh_accepts_token_after_logout_all :
    flat_logout_all_endpoint flatStoreJ1 "u1" = (1, [])
  ∧ ((flat_refresh_endpoint (some tokenU1J1) ["u1"] [] 200 "j9").1).isOk = true
  ∧ (flat_refresh_endpoint (some tokenU1J1) ["u1"] [] 200 "j9").1
      ≠ RefreshOutcome.err 401 "Token revoked" := by
  refine ⟨by decide, by decide, by decide⟩

/-- C8 counterexample: `create_refresh_token` is not a pure function of
its inputs and the clock.  Two calls with the same `data` dict and the
same clock reading but different random jti draws return different
tokens, and the call mutates its `data` argument in place
(`data.update(...)`, security.py lines 35-39), so the dict after the call
differs from the dict passed in. -/
theorem encode_refresh_not_pure :
    (create_refresh_token { sub := some "u1", typ := none, jti := none, exp := none } 0 "j1").1
      ≠ (create_refresh_token { sub := some "u1", typ := none, jti := none, exp := none } 0 "j2").1
  ∧ (create_refresh_token { sub := some "u1", typ := none, jti := none, exp := none } 0 "j1").2
      ≠ { sub := some "u1", typ := none, jti := none, exp := none } := by
  refine ⟨by decide, by decide⟩

/-- C8 as amended: `create_access_token` copies its dict and leaves the
caller's argument unchanged, and both encoders are deterministic functions
of their inputs, the clock, and — for `create_refresh_token` — the freshly
drawn jti; `create_refresh_token` mutates its argument dict in place,
setting exactly the keys `exp`, `type` and `jti`. -/
theorem codec_call_semantics (d : Claims) (now : Nat) (delta : Option Nat) (j : String) :
    (createAccessTokenCall d now delta).2 = d
  ∧ (create_refresh_token d now j).2
      = { d with exp := some (now + REFRESH_TTL), typ := some "refresh", jti := some j }
  ∧ (create_refresh_token d now j).1
      = Token.signed REFRESH_SECRET_KEY
          { d with exp := some (now + REFRESH_TTL), typ := some "refresh", jti := some j } :=
  ⟨rfl, rfl, rfl⟩

/-- C9 counterexample: a jti collision on insert is not retried.  On a
store already holding jti "j1", the source's
`app_create_and_save_refresh_token` (auth_service.py lines 69-94, one
single jti draw) fails with the integrity error at its first and only
insert attempt, whereas the spec's once-retried insert
(`spec_create_and_save_with_retry`) would succeed with the fresh second
draw "j2". -/
theorem conflict_not_retried :
    app_create_and_save_refresh_token "u1" 0 "j1"
        [{ userId := "u2", tokenJti := "j1", expiresAt := 999 }]
      = Except.error DbError.integrityError
  ∧ (spec_create_and_save_with_retry "u1" 0 "j1" "j2"
        [{ userId := "u2", tokenJti := "j1", expiresAt := 999 }]).isOk = true := by
  refine ⟨rfl, rfl⟩

/-- C3 as amended: with a decodable refresh token whose claims check out
and a matching store record, the app variant's refresh fails with 401
"Token expired" (deleting the record) exactly when
`record.expiresAt < now` — the code's check is the strict
`utcnow() > expires_at` (auth_service.py line 120) — and consequently a
new pair can only be issued when `record.expiresAt >= now`. -/
theorem store_expiry_check_strict
    (tok : Token) (store : List AppRefreshTokenRecord) (now : Nat) (newJti : String)
    (p : Claims) (uid j : String) (r : AppRefreshTokenRecord)
    (hdec : decode_refresh_token now tok = some p)
    (htyp : p.typ = some "refresh")
    (hsub : p.sub = some uid) (huid : uid ≠ "")
    (hjti : p.jti = some j) (hj : j ≠ "")
    (hrec : get_by_jti store j = some r) :
    (r.expiresAt < now →
      app_refresh_tokens tok store now newJti
        = (RefreshOutcome.err 401 "Token expired", (revoke_by_jti store j).2))
  ∧ ((app_refresh_tokens tok store now newJti).1.isOk = true → ¬ r.expiresAt < now) := by
  constructor
  · intro hlt
    simp only [app_refresh_tokens, hdec, htyp, hsub, hjti, hrec]
    simp [huid, hj, hlt]
  · intro hOk hlt
    simp only [app_refresh_tokens, hdec, htyp, hsub, hjti, hrec] at hOk
    simp [huid, hj, hlt, RefreshOutcome.isOk] at hOk

/-- Witness for `store_expiry_check_strict`: at time 150, the token
`tokenU1J1` decodes to `claimsU1J1` and the matching store record has
stored expiry 50 < 150, so the call fails with 401 "Token expired" and
deletes the record. -/
theorem store_expiry_check_strict_witness :
    decode_refresh_token 150 tokenU1J1 = some claimsU1J1
  ∧ claimsU1J1.typ = some "refresh"
  ∧ get_by_jti appStoreStale "j1"
      = some { userId := "u1", tokenJti := "j1", expiresAt := 50 }
  ∧ app_refresh_tokens tokenU1J1 appStoreStale 150 "j2"
      = (RefreshOutcome.err 401 "Token expired", (revoke_by_jti appStoreStale "j1").2) :=
  ⟨rfl, rfl, rfl,
   (store_expiry_check_strict tokenU1J1 appStoreStale 150 "j2" claimsU1J1 "u1" "j1"
      { userId := "u1", tokenJti := "j1", expiresAt := 50 }
      rfl rfl rfl (by decide) rfl (by decide) rfl).1 (by decide)⟩

/-- C5: access-token verification is stateless.  `get_current_user` reads
only the users table: its outcome is invariant under any replacement of
the refresh-token store, and in particular under whole-user revocation
(`logout_all_db`) and single-token revocation (`logout_db`); and an access
token issued at `t0` for an existing user is still accepted at any `now2`
up to its own expiry `t0 + ACCESS_TTL`. -/
theorem access_verification_stateless
    (cookie : Option Token) (now : Nat) (db : AppDb) (ts : List AppRefreshTokenRecord)
    (u j uid : String) (t0 now2 : Nat)
    (hu : db.users.contains uid = true) (hexp : now2 ≤ t0 + ACCESS_TTL) :
    get_current_user_db cookie now { db with refresh_tokens := ts }
      = get_current_user_db cookie now db
  ∧ get_current_user_db cookie now (logout_all_db db u).2 = get_current_user_db cookie now db
  ∧ get_current_user_db cookie now (logout_db db j) = get_current_user_db cookie now db
  ∧ get_current_user_db
      (some (create_access_token
        { sub := some uid, typ := none, jti := none, exp := none } t0 none))
      now2 db = some uid := by
  refine ⟨rfl, rfl, rfl, ?_⟩
  have hu2 : uid ∈ db.users := by simpa using hu
  simp [get_current_user_db, get_current_user, decode_access_token, jwtDecode,
        create_access_token, hu2, Nat.not_lt.mpr hexp]

/-- Witness for `access_verification_stateless` on the fixture database
`dbW` and an access token issued for "u1" at time 0, verified at time 5. -/
theorem access_verification_stateless_witness :
    (dbW.users.contains "u1" = true ∧ (5:Nat) ≤ 0 + ACCESS_TTL)
  ∧ (get_current_user_db none 0 { dbW with refresh_tokens := [] }
       = get_current_user_db none 0 dbW
     ∧ get_current_user_db none 0 (logout_all_db dbW "u1").2 = get_current_user_db none 0 dbW
     ∧ get_current_user_db none 0 (logout_db dbW "j1") = get_current_user_db none 0 dbW
     ∧ get_current_user_db
         (some (create_access_token
           { sub := some "u1", typ := none, jti := none, exp := none } 0 none))
         5 dbW = some "u1") :=
  ⟨⟨by decide, by decide⟩,
   access_verification_stateless none 0 dbW [] "u1" "j1" "u1" 0 5 (by decide) (by decide)⟩

/-- C6: logout never fails the caller.  In both variants, the logout
operation returns the success message for every input cookie — including
a missing cookie and tokens that are garbage, expired, or signed with the
wrong key — and whenever the presented token fails to decode, the store
is left unchanged (nothing is deleted).  When the token does decode, the
deletion ignores its rowcount, so absence of the jti is not an error. -/
theorem logout_never_fails
    (cookie : Option Token) (tok : Token) (now : Nat)
    (store : List AppRefreshTokenRecord) (fstore : List FlatRefreshTokenRecord)
    (hbad : decode_refresh_token now tok = none) :
    (app_logout_route cookie store now).1 = "Successfully logged out"
  ∧ (flat_logout_endpoint cookie fstore now).1 = "Successfully logged out"
  ∧ (app_logout_route (some tok) store now).2 = store
  ∧ (flat_logout_endpoint (some tok) fstore now).2 = fstore := by
  refine ⟨?_, ?_, ?_, ?_⟩
  · cases cookie with
    | none => rfl
    | some t =>
      rcases hd : decode_refresh_token now t with _ | p
      · simp [app_logout_route, hd]
      · rcases hj : p.jti with _ | j
        · simp [app_logout_route, hd, hj]
        · by_cases hje : j = "" <;> simp [app_logout_route, hd, hj, hje]
  · cases cookie with
    | none => rfl
    | some t =>
      rcases hd : decode_refresh_token now t with _ | p
      · simp [flat_logout_endpoint, hd]
      · rcases hj : p.jti with _ | j
        · simp [flat_logout_endpoint, hd, hj]
        · by_cases hje : j = "" <;> simp [flat_logout_endpoint, hd, hj, hje]
  · simp [app_logout_route, hbad]
  · simp [flat_logout_endpoint, hbad]

/-- Witness for `logout_never_fails`: logging out with the undecodable
cookie `garbageTok` at time 5 succeeds in both variants and leaves the
(empty) stores unchanged. -/
theorem logout_never_fails_witness :
    decode_refresh_token 5 garbageTok = none
  ∧ ((app_logout_route (some garbageTok) [] 5).1 = "Successfully logged out"
     ∧ (flat_logout_endpoint (some garbageTok) [] 5).1 = "Successfully logged out"
     ∧ (app_logout_route (some garbageTok) [] 5).2 = ([] : List AppRefreshTokenRecord)
     ∧ (flat_logout_endpoint (some garbageTok) [] 5).2 = ([] : List FlatRefreshTokenRecord)) :=
  ⟨rfl, logout_never_fails (some garbageTok) garbageTok 5 [] [] rfl⟩

/-- In a list whose keys are pairwise distinct, a present key is matched
by exactly one element of the filter. -/
theorem length_filter_key_eq_one {α : Type} (f : α → String) (j : String) (l : List α)
    (hnd : (l.map f).Nodup) (hmem : ∃ r ∈ l, f r = j) :
    (l.filter (fun r => f r == j)).length = 1 := by
  induction l with
  | nil => rcases hmem with ⟨r, hr, _⟩; cases hr
  | cons a t ih =>
    rw [List.map_cons, List.nodup_cons] at hnd
    by_cases ha : f a = j
    · have ht : t.filter (fun r => f r == j) = [] := by
        rw [List.filter_eq_nil_iff]
        intro x hx hxj
        apply hnd.1
        rw [List.mem_map]
        refine ⟨x, hx, ?_⟩
        rw [beq_iff_eq] at hxj
        rw [hxj, ha]
      simp [List.filter_cons, ha, ht]
    · rcases hmem with ⟨r, hr, hrj⟩
      rcases List.mem_cons.mp hr with h1 | h2
      · exact absurd (h1 ▸ hrj) ha
      · have hrec := ih hnd.2 ⟨r, h2, hrj⟩
        simp [List.filter_cons, ha, hrec]

/-- C7: `revoke_by_jti` is idempotent and returns the number of rows
removed.  Under the unique index on `token_jti` (modelled as the Nodup
hypothesis on the stored jtis), it returns 0 when the jti is absent and 1
when a record carries it; a second call with the same jti returns 0 and
leaves the store exactly as after the first call. -/
theorem revoke_by_jti_idempotent
    (store : List AppRefreshTokenRecord) (j : String)
    (hnd : (store.map (fun r => r.tokenJti)).Nodup) :
    ((∀ r ∈ store, r.tokenJti ≠ j) → (revoke_by_jti store j).1 = 0)
  ∧ ((∃ r ∈ store, r.tokenJti = j) → (revoke_by_jti store j).1 = 1)
  ∧ (revoke_by_jti (revoke_by_jti store j).2 j).1 = 0
  ∧ (revoke_by_jti (revoke_by_jti store j).2 j).2 = (revoke_by_jti store j).2 := by
  refine ⟨?_, ?_, ?_, ?_⟩
  · intro habs
    have hnil : store.filter (fun r => r.tokenJti == j) = [] := by
      rw [List.filter_eq_nil_iff]
      intro r hr h
      exact habs r hr (by rwa [beq_iff_eq] at h)
    simp [revoke_by_jti, hnil]
  · intro hmem
    exact length_filter_key_eq_one (fun r => r.tokenJti) j store hnd hmem
  · have hnil : ((store.filter (fun r => !(r.tokenJti == j))).filter
        (fun r => r.tokenJti == j)) = [] := by
      rw [List.filter_eq_nil_iff]
      intro r hr h
      have h2 := (List.mem_filter.mp hr).2
      simp_all
    simp [revoke_by_jti, hnil]
  · have hself : ((store.filter (fun r => !(r.tokenJti == j))).filter
        (fun r => !(r.tokenJti == j))) = store.filter (fun r => !(r.tokenJti == j)) :=
      List.filter_eq_self.mpr (fun r hr => (List.mem_filter.mp hr).2)
    simp [revoke_by_jti, hself]

/-- Witness for `revoke_by_jti_idempotent` on `appStoreTwo`, whose jtis
"j1" and "jX" are distinct: deleting "j1" once returns 1, a second delete
returns 0 and changes nothing. -/
theorem revoke_by_jti_idempotent_witness :
    (appStoreTwo.map (fun r => r.tokenJti)).Nodup
  ∧ (revoke_by_jti appStoreTwo "j1").1 = 1
  ∧ (revoke_by_jti (revoke_by_jti appStoreTwo "j1").2 "j1").1 = 0
  ∧ (revoke_by_jti (revoke_by_jti appStoreTwo "j1").2 "j1").2
      = (revoke_by_jti appStoreTwo "j1").2 :=
  ⟨by decide,
   (revoke_by_jti_idempotent appStoreTwo "j1" (by decide)).2.1
     ⟨{ userId := "u1", tokenJti := "j1", expiresAt := 2000 }, by decide, rfl⟩,
   (revoke_by_jti_idempotent appStoreTwo "j1" (by decide)).2.2.1,
   (revoke_by_jti_idempotent appStoreTwo "j1" (by decide)).2.2.2⟩

/-- C9 as amended: a jti collision on insert is not retried.  Whenever the
drawn jti already exists in the store, `_create_and_save_refresh_token`
fails with the integrity error at its single insert attempt, and whenever
that failure escapes the service during a refresh, the route's generic
exception handler surfaces it as 500 "Internal server error" — the
process does not crash, but no second attempt with a fresh jti is made. -/
theorem conflict_surfaces_as_internal_error
    (u : String) (now : Nat) (j : String) (store : List AppRefreshTokenRecord)
    (tok : Token) (store2 : List AppRefreshTokenRecord) (now2 : Nat) (nj : String)
    (hcoll : ∃ r ∈ store, r.tokenJti = j)
    (hfail : (app_refresh_tokens tok store2 now2 nj).1 = RefreshOutcome.dbFailure) :
    app_create_and_save_refresh_token u now j store = Except.error DbError.integrityError
  ∧ (app_refresh_route (some tok) store2 now2 nj).1
      = RefreshOutcome.err 500 "Internal server error" := by
  constructor
  · have hany : store.any (fun r => r.tokenJti == j) = true := by
      rw [List.any_eq_true]
      rcases hcoll with ⟨r, hr, hj⟩
      exact ⟨r, hr, by simp [hj]⟩
    simp [app_create_and_save_refresh_token, tokenRepoCreate, hany]
  · unfold app_refresh_route
    rcases hres : app_refresh_tokens tok store2 now2 nj with ⟨o, st⟩
    rw [hres] at hfail
    have ho : o = RefreshOutcome.dbFailure := hfail
    subst ho
    simp [hres]

/-- Witness for `conflict_surfaces_as_internal_error`: inserting with the
already-present jti "j1" fails with the integrity error, and the rotation
of `tokenU1J1` over `appStoreTwo` whose fresh draw "jX" collides surfaces
as 500 at the route. -/
theorem conflict_surfaces_as_internal_error_witness :
    (∃ r ∈ ([{ userId := "u2", tokenJti := "j1", expiresAt := 999 }] :
        List AppRefreshTokenRecord), r.tokenJti = "j1")
  ∧ (app_refresh_tokens tokenU1J1 appStoreTwo 100 "jX").1 = RefreshOutcome.dbFailure
  ∧ (app_create_and_save_refresh_token "u1" 7 "j1"
        [{ userId := "u2", tokenJti := "j1", expiresAt := 999 }]
        = Except.error DbError.integrityError
     ∧ (app_refresh_route (some tokenU1J1) appStoreTwo 100 "jX").1
         = RefreshOutcome.err 500 "Internal server error") :=
  ⟨⟨{ userId := "u2", tokenJti := "j1", expiresAt := 999 }, by decide, rfl⟩,
   by decide,
   conflict_surfaces_as_internal_error "u1" 7 "j1"
     [{ userId := "u2", tokenJti := "j1", expiresAt := 999 }]
     tokenU1J1 appStoreTwo 100 "jX"
     ⟨{ userId := "u2", tokenJti := "j1", expiresAt := 999 }, by decide, rfl⟩
     (by decide)⟩

/-- The flat refresh endpoint only ever removes rows or appends rows built
by `mkFlatRecord`, whose `is_revoked` is the column default `False`. -/
theorem flat_refresh_preserves
    (cookie : Option Token) (users : List String) (s : List FlatRefreshTokenRecord)
    (now : Nat) (nj : String) (hs : ∀ r ∈ s, r.isRevoked = false) :
    ∀ r ∈ (flat_refresh_endpoint cookie users s now nj).2, r.isRevoked = false := by
  intro r hr
  simp only [flat_refresh_endpoint, save_refresh_token, revoke_token] at hr
  repeat' split at hr
  all_goals first
    | exact hs r hr
    | exact hs r (List.mem_filter.mp hr).1
    | (rcases List.mem_append.mp hr with h1 | h1
       · first
          | exact hs r h1
          | exact hs r (List.mem_filter.mp h1).1
       · rw [List.mem_singleton] at h1
         subst h1
         rfl)

/-- The flat logout endpoint only ever removes rows. -/
theorem flat_logout_preserves
    (cookie : Option Token) (s : List FlatRefreshTokenRecord) (now : Nat)
    (hs : ∀ r ∈ s, r.isRevoked = false) :
    ∀ r ∈ (flat_logout_endpoint cookie s now).2, r.isRevoked = false := by
  intro r hr
  simp only [flat_logout_endpoint, revoke_token] at hr
  repeat' split at hr
  all_goals first
    | exact hs r hr
    | exact hs r (List.mem_filter.mp hr).1

/-- The flat logout-all endpoint only ever removes rows. -/
theorem flat_logout_all_preserves
    (s : List FlatRefreshTokenRecord) (u : String)
    (hs : ∀ r ∈ s, r.isRevoked = false) :
    ∀ r ∈ (flat_logout_all_endpoint s u).2, r.isRevoked = false := by
  intro r hr
  simp only [flat_logout_all_endpoint, revoke_user_tokens] at hr
  repeat' split at hr
  all_goals first
    | exact hs r hr
    | exact hs r (List.mem_filter.mp hr).1

/-- A successful flat login insert appends exactly the new default-flag
record. -/
theorem flat_create_ok
    (u : String) (now : Nat) (j : String) (s : List FlatRefreshTokenRecord)
    (t : Token) (s' : List FlatRefreshTokenRecord)
    (h : flat_create_and_save_refresh_token u now j s = Except.ok (t, s')) :
    s' = s ++ [mkFlatRecord u j (now + REFRESH_TTL)] := by
  simp only [flat_create_and_save_refresh_token] at h
  split at h
  · cases h
  · rw [Except.ok.injEq, Prod.mk.injEq] at h
    exact h.2.symm

/-- Every record of a reachable flat store has its `is_revoked` flag equal
to the column default `False`. -/
theorem flatReachable_invariant (s : List FlatRefreshTokenRecord) (h : FlatReachable s) :
    ∀ r ∈ s, r.isRevoked = false := by
  induction h with
  | init => intro r hr; cases hr
  | login s u now j t s' _ hok ih =>
    intro r hr
    rw [flat_create_ok u now j s t s' hok] at hr
    rcases List.mem_append.mp hr with h1 | h1
    · exact ih r h1
    · rw [List.mem_singleton] at h1
      subst h1
      rfl
  | refresh s cookie users now nj _ ih => exact flat_refresh_preserves cookie users s now nj ih
  | logout s cookie now _ ih => exact flat_logout_preserves cookie s now ih
  | logoutAll s u _ ih => exact flat_logout_all_preserves s u ih

/-- C10: in the flat variant the `is_revoked` flag is never set — every
revocation path deletes rows, and every insertion path constructs the row
with the column default — so in every reachable store state every stored
record has `is_revoked = False`. -/
theorem flat_is_revoked_always_false (s : List FlatRefreshTokenRecord)
    (h : FlatReachable s) : allNotRevoked s = true := by
  simp only [allNotRevoked, List.all_eq_true]
  intro r hr
  simp [flatReachable_invariant s h r hr]

/-- Witness for `flat_is_revoked_always_false`: the store reached by one
login from the empty table satisfies the invariant. -/
theorem flat_is_revoked_always_false_witness :
    FlatReachable flatStoreOne ∧ allNotRevoked flatStoreOne = true := by
  have hreach : FlatReachable flatStoreOne :=
    FlatReachable.login [] "u1" 0 "jW"
      (Token.signed REFRESH_SECRET_KEY
        { sub := some "u1", typ := some "refresh", jti := some "jW",
          exp := some (0 + REFRESH_TTL) })
      flatStoreOne FlatReachable.init rfl
  exact ⟨hreach, flat_is_revoked_always_false flatStoreOne hreach⟩
